import Mathlib

/-!
Verification of `src/language/client.ts` of the NaninovelVSCode extension:
the activation shim that acquires a .NET runtime, locates the Naninovel
language-server binary, starts the LSP client and forwards telemetry and
error events.

The TypeScript file is straight-line effectful code; it is embedded here by
making every external input explicit in an `Env` record (the result of the
`dotnet.acquire` host command, the `NANINOVEL_LANGUAGE_SERVER_PATH`
environment variable, the extension install directory, the `existsSync`
answer, and the process working directory that Node's `path.resolve`
resolves against) and by returning, instead of performing, the effects:
a thrown error becomes `Except.error`, and the externally visible steps are
recorded in an event trace.
-/

namespace Naninovel

/-! ## Node `path` model (POSIX)

`path.resolve(p)` resolves `p` against the process working directory and
normalizes it: segments are split on `/`, empty and `.` segments are
dropped, and `..` removes the preceding segment (at the root, `..` is a
no-op).  The result always begins with the separator, i.e. is absolute. -/

namespace Path

/-- A POSIX path is absolute when its first character is the separator. -/
def isAbsolute (p : String) : Bool := p.data.head? = some '/'

/-- Split a character list into `/`-separated segments (first-structural
recursion so that concrete inputs evaluate in the kernel). -/
def splitSegsAux : List Char → List Char → List String
  | [], acc => [String.mk acc.reverse]
  | c :: cs, acc =>
    if c = '/' then String.mk acc.reverse :: splitSegsAux cs []
    else splitSegsAux cs (c :: acc)

/-- One normalization step: drop empty and `.` segments, let `..` remove the
previously kept segment, keep everything else. -/
def normStep (acc : List String) (seg : String) : List String :=
  if seg = "" ∨ seg = "." then acc
  else if seg = ".." then acc.dropLast
  else acc ++ [seg]

/-- Model of Node `path.resolve(p)` on POSIX, with the process working
directory passed explicitly: an already-absolute `p` is normalized as is,
a relative `p` is first joined onto `cwd`. -/
def resolve (cwd p : String) : String :=
  let full := if isAbsolute p then p else cwd ++ "/" ++ p
  "/" ++ String.intercalate "/" ((splitSegsAux full.data []).foldl normStep [])

theorem isAbsolute_slash_append (s : String) :
    isAbsolute ("/" ++ s) = true := by
  cases s with
  | mk data => rfl

theorem resolve_isAbsolute (cwd p : String) :
    isAbsolute (resolve cwd p) = true :=
  isAbsolute_slash_append _

end Path

/-! ## Constants of `client.ts` (lines 13-16) -/

def languageId : String := "naniscript"
def dotnetRuntimeVersion : String := "3.1"
def extensionId : String := "Elringus.naninovel"
def packagedServerPath : String := "server/NaninovelLanguageServer.dll"

/-! ## External inputs -/

/-- The object returned by the `dotnet.acquire` host command when it
succeeds (`result.dotnetPath` is the runtime executable path). -/
structure DotnetAcquireResult where
  dotnetPath : String
deriving DecidableEq

/-- The external inputs of one activation: everything the TypeScript reads
from the host, the filesystem or the process environment. -/
structure Env where
  /-- result of `vscode.commands.executeCommand("dotnet.acquire", ...)`;
  `none` models a falsy result. -/
  acquireResult : Option DotnetAcquireResult
  /-- `process.env.NANINOVEL_LANGUAGE_SERVER_PATH` (`some ""` models the
  variable being set to the empty string, which `??` does not skip). -/
  envServerPath : Option String
  /-- `context.extensionPath`, the extension install directory. -/
  extensionPath : String
  /-- `fs.existsSync`. -/
  existsAt : String → Bool
  /-- `process.cwd()`, the base `path.resolve` resolves relative paths
  against. -/
  cwd : String
  /-- `Date.now()` at activation time (read by `configureTelemetry` for the
  `secondsSinceStart` measurement; it does not influence the launch flow). -/
  now : Nat

/-- `vscode.ExtensionContext.asAbsolutePath`: joins the relative path onto
the extension install directory. -/
def asAbsolutePath (extensionPath relativePath : String) : String :=
  extensionPath ++ "/" ++ relativePath

/-! ## The three functions of the launch flow -/

/-- `ensureDotnetRuntimeInstalled` (client.ts lines 80-94): run the
`dotnet.acquire` host command once; a falsy result is a thrown error naming
the runtime version, otherwise return `path.resolve(result.dotnetPath)`. -/
def ensureDotnetRuntimeInstalled (env : Env) : Except String String :=
  match env.acquireResult with
  | none =>
    Except.error ("Failed to install .NET runtime v" ++ dotnetRuntimeVersion ++ ".")
  | some result => Except.ok (Path.resolve env.cwd result.dotnetPath)

/-- `ensureLanguageServerExists` (client.ts lines 96-108): the env var
override, when nullish-defined, else the packaged path; a missing file is a
thrown error naming the path, otherwise `path.resolve` of it. -/
def ensureLanguageServerExists (env : Env) : Except String String :=
  let languageServerPath :=
    env.envServerPath.getD (asAbsolutePath env.extensionPath packagedServerPath)
  if ! env.existsAt languageServerPath then
    Except.error ("Language server does not exist at \x27" ++ languageServerPath ++ "\x27.")
  else
    Except.ok (Path.resolve env.cwd languageServerPath)

/-- The server location the `??` expression in `ensureLanguageServerExists`
selects, extracted for theorem statements. -/
def selectedServerPath (env : Env) : String :=
  env.envServerPath.getD (asAbsolutePath env.extensionPath packagedServerPath)

/-! ## Launch flow -/

/-- The externally visible steps of `launchLanguageService`, in the order
the source performs them. -/
inductive Event where
  /-- awaiting `ensureDotnetRuntimeInstalled` (the `dotnet.acquire` command) -/
  | acquireRuntime
  /-- the `existsSync` check inside `ensureLanguageServerExists` -/
  | checkServerExists
  /-- `new lsp.LanguageClient(...)` -/
  | constructClient
  /-- `client.start()` (requests the server subprocess spawn) -/
  | startClient
  /-- `context.subscriptions.push(...)` of the disposable `start` returned -/
  | pushSubscription
  /-- awaiting `client.onReady()` -/
  | awaitReady
deriving DecidableEq, BEq

/-- `lsp.Executable`: the subprocess command and arguments. -/
structure Executable where
  command : String
  args : List String
deriving DecidableEq

/-- `lsp.ServerOptions`: run and debug executables. -/
structure ServerOptions where
  run : Executable
  debug : Executable
deriving DecidableEq

/-- The `lsp.LanguageClientOptions` fields set at client.ts lines 53-60. -/
structure ClientOptions where
  documentSelector : List String
  progressOnInitialization : Bool
  outputChannel : Nat
  fileEventsGlob : String
deriving DecidableEq

/-- The constructed `lsp.LanguageClient`, by its constructor arguments. -/
structure ClientConfig where
  id : String
  name : String
  serverOptions : ServerOptions
  clientOptions : ClientOptions
deriving DecidableEq

/-- What a successful `launchLanguageService` run produced. -/
structure LaunchOutcome where
  dotnetCommandPath : String
  languageServerPath : String
  client : ClientConfig
deriving DecidableEq

/-- `launchLanguageService` (client.ts lines 31-78): acquire the runtime,
verify the server binary, build the executable and options, construct the
client, start it (pushing the disposable onto `context.subscriptions`) and
await readiness.  The second component records the steps reached; a thrown
error truncates both the flow and the trace.  The `outputChannel` argument
is the opaque channel handed in by the caller. -/
def launchLanguageService (env : Env) (outputChannel : Nat) :
    Except String LaunchOutcome × List Event :=
  match ensureDotnetRuntimeInstalled env with
  | Except.error e => (Except.error e, [Event.acquireRuntime])
  | Except.ok dotnetCommandPath =>
    match ensureLanguageServerExists env with
    | Except.error e =>
      (Except.error e, [Event.acquireRuntime, Event.checkServerExists])
    | Except.ok languageServerPath =>
      let serverExecutable : Executable := ⟨dotnetCommandPath, [languageServerPath]⟩
      let serverOptions : ServerOptions := ⟨serverExecutable, serverExecutable⟩
      let clientOptions : ClientOptions :=
        ⟨[languageId], true, outputChannel, "**/*.nani"⟩
      let client : ClientConfig := ⟨languageId, "NaniScript", serverOptions, clientOptions⟩
      (Except.ok ⟨dotnetCommandPath, languageServerPath, client⟩,
       [Event.acquireRuntime, Event.checkServerExists, Event.constructClient,
        Event.startClient, Event.pushSubscription, Event.awaitReady])

/-- The full activation step sequence of `launchLanguageService`. -/
def activationSequence : List Event :=
  [Event.acquireRuntime, Event.checkServerExists, Event.constructClient,
   Event.startClient, Event.pushSubscription, Event.awaitReady]

/-! ## Telemetry and error forwarding (`configureTelemetry`) -/

/-- A reported action of the host error-reporting facility
(`callWithTelemetryAndErrorHandlingSync` of `vscode-azureextensionui`):
the action name it was invoked under, the telemetry properties the callback
set, whether the callback suppressed error display, and the message of the
error the callback threw, if any (the facility catches and reports thrown
errors; nothing propagates to the caller). -/
structure ReportedEvent where
  eventName : String
  properties : List (String × Option String)
  suppressDisplay : Bool
  thrownMessage : Option String
deriving DecidableEq

/-- The telemetry payload the language client delivers to `onTelemetry`,
shaped as at client.ts lines 115-118. -/
structure TelemetryData where
  eventName : String
  properties : List (String × Option String)
deriving DecidableEq

/-- The `onTelemetry` callback registered by `configureTelemetry`
(client.ts lines 114-128): report under the event's own name, suppress
error display, and hand the property record through unchanged. -/
def onTelemetryCallback (telemetryData : TelemetryData) : ReportedEvent :=
  ⟨telemetryData.eventName, telemetryData.properties, true, none⟩

/-- `vscode-languageclient` `ErrorAction`. -/
inductive ErrorAction
  | Continue
  | Shutdown
deriving DecidableEq

/-- `vscode-languageclient` `CloseAction`. -/
inductive CloseAction
  | DoNotRestart
  | Restart
deriving DecidableEq

/-- An LSP `Message`, by the only field this code reads (`jsonrpc`). -/
structure Message where
  jsonrpc : String
deriving DecidableEq

/-- An `lsp.ErrorHandler` by its observable behavior; in particular the
result of `client.createDefaultErrorHandler()` is one of these.  An error
is represented by its message string (that is what `parseError` extracts
from it). -/
structure ErrorHandler where
  error : String → Option Message → Option Nat → ErrorAction
  closed : Unit → CloseAction

/-- The `error` member of the handler `configureTelemetry` installs
(client.ts lines 131-149): report a `naniscript.lsp-error` action whose
`jsonrpcMessage` property is the message's `jsonrpc` field (or `""` without
a message) and whose callback throws `parseError(error).message`, then
return what the default error handler returns for the very same event.
(The wall-clock `secondsSinceStart` measurement is outside the embedding.) -/
def installedErrorMember (defaultErrorHandler : ErrorHandler) (error : String)
    (message : Option Message) (count : Option Nat) : ReportedEvent × ErrorAction :=
  (⟨"naniscript.lsp-error",
    [("jsonrpcMessage", some (match message with | some m => m.jsonrpc | none => ""))],
    false,
    some ("Error: " ++ error)⟩,
   defaultErrorHandler.error error message count)

/-- The `closed` member of the installed handler (client.ts lines 150-161). -/
def installedClosedMember (defaultErrorHandler : ErrorHandler) :
    ReportedEvent × CloseAction :=
  (⟨"naniscript.lsp-error", [], false, some "Connection closed"⟩,
   defaultErrorHandler.closed ())

/-! ## Concrete runs used as witnesses and counterexamples -/

/-- A run where the `dotnet.acquire` host command returns a falsy result. -/
def envAcquireFalsy : Env := ⟨none, none, "/ext", fun _ => true, "/cwd", 0⟩

/-- A run whose env-var override is set to the empty string (a path that
never exists) while the packaged server file does exist. -/
def envOverrideMissing : Env :=
  ⟨some ⟨"dn"⟩, some "", "/ext", fun q => !(q == ""), "/cwd", 0⟩

/-- A fully successful run with working directory `/x`. -/
def envHappy : Env := ⟨some ⟨"dotnet"⟩, some "srv", "/ext", fun _ => true, "/x", 0⟩

/-- The same inputs as `envHappy` except the working directory. -/
def envHappyOtherCwd : Env := ⟨some ⟨"dotnet"⟩, some "srv", "/ext", fun _ => true, "/y", 0⟩

/-- The same inputs as `envHappy` except the activation wall-clock time. -/
def envHappyOtherNow : Env := ⟨some ⟨"dotnet"⟩, some "srv", "/ext", fun _ => true, "/x", 5⟩

/-- The outcome `launchLanguageService envHappy 0` produces. -/
def outHappy : LaunchOutcome :=
  ⟨"/x/dotnet", "/x/srv",
   ⟨"naniscript", "NaniScript",
    ⟨⟨"/x/dotnet", ["/x/srv"]⟩, ⟨"/x/dotnet", ["/x/srv"]⟩⟩,
    ⟨["naniscript"], true, 0, "**/*.nani"⟩⟩⟩

/-! ## Helper lemmas -/

/-- `ensureLanguageServerExists`, phrased through the selected location. -/
theorem ensureLanguageServerExists_eq (env : Env) :
    ensureLanguageServerExists env =
      if env.existsAt (selectedServerPath env) then
        Except.ok (Path.resolve env.cwd (selectedServerPath env))
      else
        Except.error
          ("Language server does not exist at \x27" ++ selectedServerPath env ++ "\x27.") := by
  cases h : env.existsAt (selectedServerPath env) <;>
    simp [ensureLanguageServerExists, selectedServerPath] at h ⊢ <;>
    simp [h]

/-! ## Claims -/

/-- **C1.** Every invocation of `launchLanguageService` performs the fixed
step sequence acquire-runtime, check-server-exists, construct-client,
start-client, push-subscription, await-ready in this strict order: the
trace is always an initial segment of `activationSequence`, and it is the
whole sequence exactly when the run succeeds (so no later step is reached
once an earlier step throws). -/
theorem launch_activation_order (env : Env) (oc : Nat) :
    ∃ n, n ≤ 6 ∧
      (launchLanguageService env oc).2 = activationSequence.take n ∧
      ((∃ out, (launchLanguageService env oc).1 = Except.ok out) ↔ n = 6) := by
  cases hA : env.acquireResult with
  | none =>
    refine ⟨1, by omega, ?_, ?_⟩ <;>
      simp [launchLanguageService, ensureDotnetRuntimeInstalled, hA, activationSequence]
  | some r =>
    cases hE : env.existsAt (selectedServerPath env) with
    | false =>
      refine ⟨2, by omega, ?_, ?_⟩ <;>
        simp [launchLanguageService, ensureDotnetRuntimeInstalled, hA,
          ensureLanguageServerExists_eq, hE, activationSequence]
    | true =>
      refine ⟨6, by omega, ?_, ?_⟩ <;>
        simp [launchLanguageService, ensureDotnetRuntimeInstalled, hA,
          ensureLanguageServerExists_eq, hE, activationSequence]

/-- **C2.** `launchLanguageService` throws exactly when the acquisition
command returns a falsy result or the selected server path does not exist;
a falsy acquisition throws the message naming the .NET runtime version,
a missing server file throws the message naming the path, and in each case
the failing external check appears exactly once in the trace (no retry). -/
theorem launch_throws_iff_setup_failure (env : Env) (oc : Nat) :
    ((∃ e, (launchLanguageService env oc).1 = Except.error e) ↔
      (env.acquireResult = none ∨ env.existsAt (selectedServerPath env) = false)) ∧
    (env.acquireResult = none →
      (launchLanguageService env oc).1 =
        Except.error "Failed to install .NET runtime v3.1." ∧
      (launchLanguageService env oc).2.count Event.acquireRuntime = 1) ∧
    (env.acquireResult ≠ none → env.existsAt (selectedServerPath env) = false →
      (launchLanguageService env oc).1 =
        Except.error
          ("Language server does not exist at \x27" ++ selectedServerPath env ++ "\x27.") ∧
      (launchLanguageService env oc).2.count Event.checkServerExists = 1) := by
  refine ⟨?_, ?_, ?_⟩
  · cases hA : env.acquireResult with
    | none =>
      simp [launchLanguageService, ensureDotnetRuntimeInstalled, hA]
    | some r =>
      cases hE : env.existsAt (selectedServerPath env) with
      | false =>
        simp [launchLanguageService, ensureDotnetRuntimeInstalled, hA,
          ensureLanguageServerExists_eq, hE]
      | true =>
        simp [launchLanguageService, ensureDotnetRuntimeInstalled, hA,
          ensureLanguageServerExists_eq, hE]
  · intro hA
    refine ⟨?_, ?_⟩ <;>
      simp [launchLanguageService, ensureDotnetRuntimeInstalled, hA,
        dotnetRuntimeVersion]
    all_goals decide
  · intro hA hE
    cases hAr : env.acquireResult with
    | none => exact absurd hAr hA
    | some r =>
      refine ⟨?_, ?_⟩ <;>
        simp [launchLanguageService, ensureDotnetRuntimeInstalled, hAr,
          ensureLanguageServerExists_eq, hE]
      all_goals decide

/-- Witness for C2 at a run whose `dotnet.acquire` result is falsy. -/
theorem launch_throws_iff_setup_failure_witness :
    (launchLanguageService envAcquireFalsy 0).1 =
      Except.error "Failed to install .NET runtime v3.1." ∧
    (launchLanguageService envAcquireFalsy 0).2.count Event.acquireRuntime = 1 :=
  (launch_throws_iff_setup_failure envAcquireFalsy 0).2.1 rfl

/-- **C3.** `ensureLanguageServerExists` selects the server location as
follows: when `NANINOVEL_LANGUAGE_SERVER_PATH` is defined, that value is
the server path (checked and, when present, resolved); otherwise the fixed
relative path `server/NaninovelLanguageServer.dll` joined onto the
extension install directory is. -/
theorem server_location_selection (env : Env) :
    (∀ p, env.envServerPath = some p →
      ensureLanguageServerExists env =
        if env.existsAt p then Except.ok (Path.resolve env.cwd p)
        else Except.error ("Language server does not exist at \x27" ++ p ++ "\x27.")) ∧
    (env.envServerPath = none →
      ensureLanguageServerExists env =
        if env.existsAt (asAbsolutePath env.extensionPath "server/NaninovelLanguageServer.dll") then
          Except.ok (Path.resolve env.cwd
            (asAbsolutePath env.extensionPath "server/NaninovelLanguageServer.dll"))
        else
          Except.error ("Language server does not exist at \x27" ++
            asAbsolutePath env.extensionPath "server/NaninovelLanguageServer.dll" ++ "\x27.")) := by
  constructor
  · intro p hp
    rw [ensureLanguageServerExists_eq]
    simp [selectedServerPath, hp]
  · intro hp
    rw [ensureLanguageServerExists_eq]
    simp [selectedServerPath, hp, packagedServerPath]

/-- Witness for C3: the override `srv` of `envHappy` is selected and
resolved against the working directory `/x`. -/
theorem server_location_selection_witness :
    ensureLanguageServerExists envHappy = Except.ok "/x/srv" :=
  (server_location_selection envHappy).1 "srv" rfl

/-- **C4.** Every server error event and every connection-closed event that
reaches the installed error handler is reported to the host error-reporting
facility under the `naniscript.lsp-error` action name, and the action the
handler returns is exactly what the client's default error handler returns
for the same event. -/
theorem lsp_error_reported_and_delegated (d : ErrorHandler) (e : String)
    (m : Option Message) (c : Option Nat) :
    ((installedErrorMember d e m c).1.eventName = "naniscript.lsp-error" ∧
      (installedErrorMember d e m c).2 = d.error e m c) ∧
    ((installedClosedMember d).1.eventName = "naniscript.lsp-error" ∧
      (installedClosedMember d).2 = d.closed ()) :=
  ⟨⟨rfl, rfl⟩, ⟨rfl, rfl⟩⟩

/-- **C5.** Every telemetry event from the language client is forwarded to
the host error-reporting facility with the event name and the key/value
property record passed through unchanged, with error display suppressed,
and with nothing synthesized in its place. -/
theorem telemetry_passthrough (t : TelemetryData) :
    (onTelemetryCallback t).eventName = t.eventName ∧
    (onTelemetryCallback t).properties = t.properties ∧
    (onTelemetryCallback t).suppressDisplay = true ∧
    onTelemetryCallback t = ⟨t.eventName, t.properties, true, none⟩ :=
  ⟨rfl, rfl, rfl, rfl⟩

/-- **C6.** In every successful launch, the spawned server subprocess
command is exactly the acquired dotnet runtime path with the resolved
language server path as its sole argument, and the debug server options are
the very same executable as the run ones. -/
theorem server_subprocess_command (env : Env) (oc : Nat) (out : LaunchOutcome)
    (h : (launchLanguageService env oc).1 = Except.ok out) :
    out.client.serverOptions.run = ⟨out.dotnetCommandPath, [out.languageServerPath]⟩ ∧
    out.client.serverOptions.debug = out.client.serverOptions.run := by
  cases hD : ensureDotnetRuntimeInstalled env with
  | error e => simp [launchLanguageService, hD] at h
  | ok d =>
    cases hS : ensureLanguageServerExists env with
    | error e => simp [launchLanguageService, hD, hS] at h
    | ok s =>
      simp [launchLanguageService, hD, hS] at h
      subst h
      exact ⟨rfl, rfl⟩

/-- Witness for C6 at the successful run `envHappy`. -/
theorem server_subprocess_command_witness :
    outHappy.client.serverOptions.run = ⟨"/x/dotnet", ["/x/srv"]⟩ ∧
    outHappy.client.serverOptions.debug = outHappy.client.serverOptions.run :=
  server_subprocess_command envHappy 0 outHappy rfl

/-- Counterexample for C7 as stated: two runs that agree on the
acquisition result, on `NANINOVEL_LANGUAGE_SERVER_PATH`, on the extension
install path and on the whole file-existence oracle, yet differ in the
process working directory (`/x` vs `/y`), produce different outcomes: the
relative override `srv` resolves to `/x/srv` in one and `/y/srv` in the
other. -/
theorem launch_determinism_cwd_counterexample :
    envHappy.acquireResult = envHappyOtherCwd.acquireResult ∧
    envHappy.envServerPath = envHappyOtherCwd.envServerPath ∧
    envHappy.extensionPath = envHappyOtherCwd.extensionPath ∧
    envHappy.existsAt = envHappyOtherCwd.existsAt ∧
    (launchLanguageService envHappy 0).1 ≠ (launchLanguageService envHappyOtherCwd 0).1 := by
  refine ⟨rfl, rfl, rfl, rfl, fun h => ?_⟩
  have h2 := congrArg (fun r =>
    match r with
    | Except.ok o => o.languageServerPath
    | Except.error e => e) h
  exact absurd h2 (by decide)

/-- **C7 (amended).** `launchLanguageService` is deterministic with no
branching business logic: two runs that agree on the acquisition command's
result, the value of `NANINOVEL_LANGUAGE_SERVER_PATH`, the extension
install path, the file-existence oracle *and the process working directory
that `path.resolve` resolves against* produce identical outcomes and
traces, whatever else (such as the activation wall-clock time) differs. -/
theorem launch_deterministic (env1 env2 : Env) (oc : Nat)
    (hA : env1.acquireResult = env2.acquireResult)
    (hS : env1.envServerPath = env2.envServerPath)
    (hX : env1.extensionPath = env2.extensionPath)
    (hF : env1.existsAt = env2.existsAt)
    (hC : env1.cwd = env2.cwd) :
    launchLanguageService env1 oc = launchLanguageService env2 oc := by
  obtain ⟨a1, s1, x1, f1, c1, n1⟩ := env1
  obtain ⟨a2, s2, x2, f2, c2, n2⟩ := env2
  dsimp only at hA hS hX hF hC
  subst hA hS hX hF hC
  rfl

/-- Witness for C7 (amended): two runs differing only in the activation
wall-clock time coincide. -/
theorem launch_deterministic_witness :
    launchLanguageService envHappy 0 = launchLanguageService envHappyOtherNow 0 :=
  launch_deterministic envHappy envHappyOtherNow 0 rfl rfl rfl rfl rfl

/-- **C8.** When `NANINOVEL_LANGUAGE_SERVER_PATH` is defined but names a
path that does not exist, `ensureLanguageServerExists` throws the
missing-server error naming that override — whatever the packaged path
would have yielded, so there is no fallback; the statement covers the
defined-but-empty override, since `??` keeps an empty string. -/
theorem override_authoritative (env : Env) (p : String)
    (hp : env.envServerPath = some p) (hne : env.existsAt p = false) :
    ensureLanguageServerExists env =
      Except.error ("Language server does not exist at \x27" ++ p ++ "\x27.") := by
  simp [ensureLanguageServerExists, hp, hne]

/-- Witness for C8: the override is the empty string; the packaged server
file exists, yet the thrown error names the (empty) override. -/
theorem override_authoritative_witness :
    envOverrideMissing.existsAt (asAbsolutePath "/ext" packagedServerPath) = true ∧
    ensureLanguageServerExists envOverrideMissing =
      Except.error "Language server does not exist at \x27\x27." :=
  ⟨rfl, override_authoritative envOverrideMissing "" rfl rfl⟩

/-- **C9.** Whenever `launchLanguageService` throws, no language client has
been constructed, no subprocess start has been requested, and nothing has
been pushed onto `context.subscriptions`: the failing trace contains none
of those steps. -/
theorem setup_failure_atomicity (env : Env) (oc : Nat) (e : String)
    (h : (launchLanguageService env oc).1 = Except.error e) :
    Event.constructClient ∉ (launchLanguageService env oc).2 ∧
    Event.startClient ∉ (launchLanguageService env oc).2 ∧
    Event.pushSubscription ∉ (launchLanguageService env oc).2 := by
  cases hD : ensureDotnetRuntimeInstalled env with
  | error e2 =>
    refine ⟨?_, ?_, ?_⟩ <;> simp [launchLanguageService, hD]
  | ok d =>
    cases hS : ensureLanguageServerExists env with
    | error e2 =>
      refine ⟨?_, ?_, ?_⟩ <;> simp [launchLanguageService, hD, hS]
    | ok s =>
      simp [launchLanguageService, hD, hS] at h

/-- Witness for C9 at the falsy-acquisition run. -/
theorem setup_failure_atomicity_witness :
    Event.constructClient ∉ (launchLanguageService envAcquireFalsy 0).2 ∧
    Event.startClient ∉ (launchLanguageService envAcquireFalsy 0).2 ∧
    Event.pushSubscription ∉ (launchLanguageService envAcquireFalsy 0).2 :=
  setup_failure_atomicity envAcquireFalsy 0 "Failed to install .NET runtime v3.1." rfl

/-- **C10.** `ensureDotnetRuntimeInstalled` returns `path.resolve` of the
acquired `dotnetPath`, `ensureLanguageServerExists` returns `path.resolve`
of the selected server path, every path either returns is absolute, and so
the subprocess command and its sole argument in any successful launch are
absolute paths. -/
theorem resolved_paths_absolute (env : Env) :
    (∀ r, env.acquireResult = some r →
      ensureDotnetRuntimeInstalled env = Except.ok (Path.resolve env.cwd r.dotnetPath)) ∧
    (env.existsAt (selectedServerPath env) = true →
      ensureLanguageServerExists env =
        Except.ok (Path.resolve env.cwd (selectedServerPath env))) ∧
    (∀ q, ensureDotnetRuntimeInstalled env = Except.ok q → Path.isAbsolute q = true) ∧
    (∀ p, ensureLanguageServerExists env = Except.ok p → Path.isAbsolute p = true) ∧
    (∀ oc out, (launchLanguageService env oc).1 = Except.ok out →
      Path.isAbsolute out.client.serverOptions.run.command = true ∧
      ∀ a ∈ out.client.serverOptions.run.args, Path.isAbsolute a = true) := by
  refine ⟨?_, ?_, ?_, ?_, ?_⟩
  · intro r hr
    simp [ensureDotnetRuntimeInstalled, hr]
  · intro hE
    rw [ensureLanguageServerExists_eq, hE]
    simp
  · intro q hq
    cases hr : env.acquireResult with
    | none => simp [ensureDotnetRuntimeInstalled, hr] at hq
    | some r =>
      simp [ensureDotnetRuntimeInstalled, hr] at hq
      exact hq ▸ Path.resolve_isAbsolute env.cwd r.dotnetPath
  · intro p hp
    rw [ensureLanguageServerExists_eq] at hp
    cases hE : env.existsAt (selectedServerPath env) with
    | false => rw [hE] at hp; simp at hp
    | true =>
      rw [hE] at hp
      simp at hp
      exact hp ▸ Path.resolve_isAbsolute env.cwd (selectedServerPath env)
  · intro oc out h
    cases hD : ensureDotnetRuntimeInstalled env with
    | error e => simp [launchLanguageService, hD] at h
    | ok d =>
      cases hS : ensureLanguageServerExists env with
      | error e => simp [launchLanguageService, hD, hS] at h
      | ok s =>
        simp [launchLanguageService, hD, hS] at h
        subst h
        refine ⟨?_, ?_⟩
        · cases hr : env.acquireResult with
          | none => simp [ensureDotnetRuntimeInstalled, hr] at hD
          | some r =>
            simp [ensureDotnetRuntimeInstalled, hr] at hD
            exact hD ▸ Path.resolve_isAbsolute env.cwd r.dotnetPath
        · intro a ha
          rw [ensureLanguageServerExists_eq] at hS
          cases hE : env.existsAt (selectedServerPath env) with
          | false => rw [hE] at hS; simp at hS
          | true =>
            rw [hE] at hS
            simp at hS
            simp at ha
            rw [ha, ← hS]
            exact Path.resolve_isAbsolute env.cwd (selectedServerPath env)

/-- Witness for C10 at the successful run `envHappy`: the returned runtime
path is the resolved acquired path, and the resolved server path `/x/srv`
is absolute. -/
theorem resolved_paths_absolute_witness :
    ensureDotnetRuntimeInstalled envHappy = Except.ok (Path.resolve "/x" "dotnet") ∧
    Path.isAbsolute (Path.resolve "/x" "srv") = true :=
  ⟨(resolved_paths_absolute envHappy).1 ⟨"dotnet"⟩ rfl,
   (resolved_paths_absolute envHappy).2.2.2.1 (Path.resolve "/x" "srv") rfl⟩

end Naninovel
